import Mathlib

/-!
# Verification of `accuknox_scripting`

Shallow embedding of the two monitoring scripts:
* `src/exercise1/system_health_monitor.py` — cyclic system health monitor
  (CPU / memory / disk / process checks, two-phase per-process CPU scan,
  orchestrating main loop);
* `src/exercise2/app_uptime_monitor.py` — HTTP status classifier.

Python floats are modelled as `ℚ` (the claims under study are about
comparisons and control flow, not floating-point rounding).  Calls into the
outside world (`psutil`, `requests`) are modelled by explicit environment
values describing the outcome of each call.  Fallible Python code is
modelled with `Except`; a raised-and-propagated exception is an `.error`
result.  Log output is modelled as a list of `(Level, Event)` pairs, where
`Event` is a tagged rendering of each `logger.<level>(...)` call site.
-/

namespace SysMon

/-- Python `logging` severity levels used by the scripts. -/
inductive Level where
  | debug
  | info
  | warning
  | error
  deriving DecidableEq, Repr

/-- The psutil exceptions that the monitor treats as soft, transient
per-process failures: `NoSuchProcess`, `AccessDenied`, `ZombieProcess`. -/
inductive TransientErr where
  | noSuchProcess
  | accessDenied
  | zombie
  deriving DecidableEq, Repr

/-- Exceptions that escape the modelled code.  The only one the embedded
fragments can actually raise is Python's `KeyError` (from a dict lookup on a
missing key, as in the high-CPU sort step). -/
inductive PyErr where
  | keyError (key : String)
  deriving DecidableEq, Repr

/-- One `logger.<level>(message)` call, with the message's data.  Each
constructor corresponds to one logging site of
`system_health_monitor.py`. -/
inductive Event where
  | cpuReadFailed                                         -- line 58
  | highCpu (v thr : ℚ)                                   -- line 62
  | cpuOk (v : ℚ)                                         -- line 65
  | memReadFailed                                         -- line 73
  | highMem (v thr : ℚ)                                   -- line 77
  | memOk (v : ℚ)                                         -- line 80
  | highDisk (path : String) (v thr : ℚ)                  -- line 90
  | diskOk (path : String) (v : ℚ)                        -- line 93
  | diskCheckError (path : String)                        -- line 95
  | procCountFailed                                       -- line 112
  | highProcCount (n : Nat) (thr : Int)                   -- line 117
  | procCountOk (n : Nat)                                 -- line 120
  | procCheckError (pid : Nat)                            -- line 156
  | highCpuDetected                                       -- line 161
  | highCpuLine (pid : Nat) (name : String) (cpu mem : ℚ) -- line 163
  | noHighCpu                                             -- line 165
  | newCycle                                              -- line 192
  | alertsRaised                                          -- line 205
  | allChecksOk                                           -- line 207
  | cycleCompleted                                        -- line 209
  | monitorStarting                                       -- line 188
  | stoppedByUser                                         -- line 212
  | unhandledException                                    -- line 214
  deriving DecidableEq, Repr

abbrev Log := List (Level × Event)

/-! ## Sampler checks: `check_cpu_usage`, `check_memory_usage`,
`check_disk_usage` -/

/-- `check_cpu_usage(threshold, sample_interval, logger)` (lines 50–66).
The environment value `read` is the outcome of
`psutil.cpu_percent(interval=sample_interval)`: `some v` for a successful
read, `none` when it raises.  Returns the Python pair
`(cpu_percent-or-None, alert-bool)` together with the log lines written. -/
def check_cpu_usage (read : Option ℚ) (threshold : ℚ) :
    (Option ℚ × Bool) × Log :=
  match read with
  | none => ((none, false), [(.error, .cpuReadFailed)])
  | some v =>
    if threshold < v then
      ((some v, true), [(.warning, .highCpu v threshold)])
    else
      ((some v, false), [(.info, .cpuOk v)])

/-- `check_memory_usage(threshold, logger)` (lines 68–81).
`read` is the outcome of `psutil.virtual_memory().percent`. -/
def check_memory_usage (read : Option ℚ) (threshold : ℚ) :
    (Option ℚ × Bool) × Log :=
  match read with
  | none => ((none, false), [(.error, .memReadFailed)])
  | some v =>
    if threshold < v then
      ((some v, true), [(.warning, .highMem v threshold)])
    else
      ((some v, false), [(.info, .memOk v)])

/-- `check_disk_usage(paths, threshold, logger)` (lines 83–96).
`du` gives the outcome of `psutil.disk_usage(path).percent` for each path
(`none` when it raises, caught by the per-path `except`).  Returns the
`alerts` list of `(path, pct)` pairs and the log. -/
def check_disk_usage (paths : List String) (du : String → Option ℚ)
    (threshold : ℚ) : List (String × ℚ) × Log :=
  match paths with
  | [] => ([], [])
  | p :: rest =>
    let tail := check_disk_usage rest du threshold
    match du p with
    | some pct =>
      if threshold < pct then
        ((p, pct) :: tail.1, (.warning, .highDisk p pct threshold) :: tail.2)
      else
        (tail.1, (.info, .diskOk p pct) :: tail.2)
    | none => (tail.1, (.info, .diskCheckError p) :: tail.2)

/-! ## ProcessScanner: `check_running_processes` (lines 98–166)

Phase 1 iterates `psutil.process_iter(attrs=["pid", "name"])`; for each
yielded process we record its pid, its (possibly `None`) name, and whether
the baseline `proc.cpu_percent(None)` call raised one of the transient
psutil exceptions (all of which, whether caught by the inner handler at
line 134 or the outer one at line 137, cause the entry to be skipped).
Phase 2 re-queries each registered pid; `query` gives the combined outcome
of `psutil.Process(pid)`, `cpu_percent(None)` and `memory_percent()`. -/

/-- One process yielded by `psutil.process_iter` during phase 1. -/
structure IterEntry where
  pid : Nat
  name : Option String
  initErr : Option TransientErr
  deriving DecidableEq, Repr

/-- Outcome of the phase-2 queries for one pid: all three psutil calls
succeed (`ok`), one of them raises a transient psutil exception
(`transient`, caught at line 153), or one raises some other exception
(`failed`, caught at line 155 and logged at debug level). -/
inductive Phase2Result where
  | ok (cpu_pct : Option ℚ) (mem_pct : ℚ)
  | transient (e : TransientErr)
  | failed
  deriving DecidableEq, Repr

/-- The snapshot dict built at line 152:
`{"pid": pid, "name": name, "cpu": cpu_pct, "mem": mem_pct}`. -/
structure ProcRec where
  pid : Nat
  name : String
  cpu : ℚ
  mem : ℚ
  deriving DecidableEq, Repr

/-- Python values stored in the snapshot dict. -/
inductive PyVal where
  | int (n : Nat)
  | str (s : String)
  | rat (q : ℚ)
  deriving DecidableEq, Repr

/-- The snapshot dict of line 152 as a key/value list. -/
def ProcRec.toDict (r : ProcRec) : List (String × PyVal) :=
  [("pid", .int r.pid), ("name", .str r.name),
   ("cpu", .rat r.cpu), ("mem", .rat r.mem)]

/-- Python dict subscript `d[k]`: `some` the stored value, `none` models a
raised `KeyError`. -/
def dictGet (d : List (String × PyVal)) (k : String) : Option PyVal :=
  (d.find? (fun kv => kv.1 == k)).map (fun kv => kv.2)

/-- Python dict assignment `d[k] = v` on a pid-keyed dict: an existing key
keeps its position and gets the new value, a new key is appended. -/
def dictInsert (d : List (Nat × String)) (k : Nat) (v : String) :
    List (Nat × String) :=
  if d.any (fun kv => kv.1 == k) then
    d.map (fun kv => if kv.1 == k then (k, v) else kv)
  else d ++ [(k, v)]

/-- Phase 1 (lines 125–138): build the `procs` registry `{pid: name}` from
the iteration, skipping every process whose baseline `cpu_percent(None)`
call raised; `proc.info.get("name") or ""` replaces a missing name by `""`. -/
def phase1 (entries : List IterEntry) : List (Nat × String) :=
  entries.foldl
    (fun d e =>
      match e.initErr with
      | some _ => d
      | none => dictInsert d e.pid (e.name.getD ""))
    []

/-- Phase 2 (lines 143–157): walk the registry in insertion order; skip
entries whose re-query raises a transient psutil exception, skip (with a
debug log line) entries whose re-query raises any other exception, skip
entries whose measured CPU percent is `None`, and keep a `ProcRec` exactly
for the entries whose CPU percent strictly exceeds the threshold. -/
def scanProcs (procs : List (Nat × String)) (query : Nat → Phase2Result)
    (thr : ℚ) : List ProcRec × Log :=
  match procs with
  | [] => ([], [])
  | (pid, name) :: rest =>
    let tail := scanProcs rest query thr
    match query pid with
    | .ok none _ => tail
    | .ok (some cpu) mem =>
      if thr < cpu then (⟨pid, name, cpu, mem⟩ :: tail.1, tail.2) else tail
    | .transient _ => tail
    | .failed => (tail.1, (.debug, .procCheckError pid) :: tail.2)

/-- Stable insertion for a descending sort: `x` is placed before the first
element that is not strictly greater, so equal elements keep input order. -/
def insertDesc {α : Type} (lt : α → α → Bool) (x : α) : List α → List α
  | [] => [x]
  | y :: ys => if lt x y then y :: insertDesc lt x ys else x :: y :: ys

/-- Stable descending sort, modelling `sorted(..., reverse=True)`. -/
def sortDesc {α : Type} (lt : α → α → Bool) : List α → List α
  | [] => []
  | x :: xs => insertDesc lt x (sortDesc lt xs)

/-- Ordering used by the sort of line 162 on the looked-up key values.
Only numeric values are comparable; comparing the other dict values would
be a Python `TypeError`, but no such comparison is reachable because the
key lookup itself fails first (see `reportHighCpu`). -/
def PyVal.numLt : PyVal → PyVal → Bool
  | .rat a, .rat b => a < b
  | _, _ => false

/-- One iteration of the report loop at line 163: the f-string subscripts
`p['pid']`, `p['name']`, `p['cpu']`, `p['mem_percent']` on the snapshot
dict; any missing key raises `KeyError` (`none`). -/
def reportLine (e : ProcRec) : Option (Level × Event) := do
  let _ ← dictGet e.toDict "pid"
  let _ ← dictGet e.toDict "name"
  let _ ← dictGet e.toDict "cpu"
  let _ ← dictGet e.toDict "mem_percent"
  pure (.warning, .highCpuLine e.pid e.name e.cpu e.mem)

/-- Lines 160–165: report the high-CPU list.  A non-empty list is passed to
`sorted(high_cpu_processes, key=lambda x: x["cpu_percent"], reverse=True)`;
`sorted` evaluates the key on each element in list order and the lambda
subscripts the snapshot dict with `"cpu_percent"`, a key the dict of
line 152 does not contain, so the first element raises `KeyError`.
Log lines already written when an exception is raised are not tracked by
the `Except` model. -/
def reportHighCpu (l : List ProcRec) : Except PyErr Log :=
  if l.isEmpty then .ok [(.info, .noHighCpu)]
  else
    match l.mapM (fun e => (dictGet e.toDict "cpu_percent").map (fun k => (k, e))) with
    | none => .error (.keyError "cpu_percent")
    | some keyed =>
      match (sortDesc (fun a b => PyVal.numLt a.1 b.1) keyed).mapM
          (fun ke => reportLine ke.2) with
      | none => .error (.keyError "mem_percent")
      | some lines => .ok ((.warning, .highCpuDetected) :: lines)

/-- Environment for one `check_running_processes` call: the outcome of
`len(psutil.pids())` (`none` when it raises, line 111), the phase-1
iteration, and the phase-2 query outcomes by pid. -/
structure ProcEnv where
  pidsCount : Option Nat
  entries : List IterEntry
  query : Nat → Phase2Result

/-- Lines 109–120, alert part: the `alerts` list holds the single
`("Process Count", count)` entry exactly when the count was read and
strictly exceeds the threshold. -/
def countAlerts (cnt : Option Nat) (procCountThr : Int) : List (String × Nat) :=
  match cnt with
  | none => []
  | some c => if procCountThr < (c : Int) then [("Process Count", c)] else []

/-- Lines 109–120, log part. -/
def countLogOf (cnt : Option Nat) (procCountThr : Int) : Log :=
  match cnt with
  | none => [(.error, .procCountFailed)]
  | some c =>
    if procCountThr < (c : Int) then [(.warning, .highProcCount c procCountThr)]
    else [(.info, .procCountOk c)]

/-- The `high_cpu_processes` list assembled by the two scanning phases. -/
def highCpuList (env : ProcEnv) (thr : ℚ) : List ProcRec :=
  (scanProcs (phase1 env.entries) env.query thr).1

/-- `check_running_processes(process_cpu_threshold, process_count_threshold,
sample_interval, logger)` (lines 98–166).  Returns the Python triple
`(process_count, high_cpu_processes, alerts)` and the log, or the exception
escaping the call. -/
def check_running_processes (procCpuThr : ℚ) (procCountThr : Int)
    (env : ProcEnv) :
    Except PyErr ((Option Nat × List ProcRec × List (String × Nat)) × Log) :=
  let scanned := scanProcs (phase1 env.entries) env.query procCpuThr
  match reportHighCpu scanned.1 with
  | .error e => .error e
  | .ok rlog =>
    .ok ((env.pidsCount, scanned.1, countAlerts env.pidsCount procCountThr),
         countLogOf env.pidsCount procCountThr ++ scanned.2 ++ rlog)

/-! ## CycleOrchestrator: `main` (lines 172–214) -/

/-- The command-line configuration consumed by one cycle. -/
structure Config where
  cpuThr : ℚ
  memThr : ℚ
  diskThr : ℚ
  procCpuThr : ℚ
  procCountThr : Int
  diskPaths : List String

/-- Environment for one cycle: the outcomes of every external call the
cycle makes. -/
structure CycleEnv where
  cpuRead : Option ℚ
  memRead : Option ℚ
  du : String → Option ℚ
  procEnv : ProcEnv

/-- The data assembled by one completed cycle (lines 190–209). -/
structure CycleData where
  cpu_alert : Bool
  mem_alert : Bool
  disk_alerts : List (String × ℚ)
  high_cpu_procs : List ProcRec
  proc_alerts : List (String × Nat)
  cycle_alerts : Bool
  log : Log

/-- The body of the `while True` loop (lines 190–210): run the four checks,
aggregate `cycle_alerts` by the truthiness test of line 201, and log the
cycle verdict.  An exception escaping a check escapes the cycle. -/
def runCycle (cfg : Config) (env : CycleEnv) : Except PyErr CycleData :=
  let cpu := check_cpu_usage env.cpuRead cfg.cpuThr
  let mem := check_memory_usage env.memRead cfg.memThr
  let disk := check_disk_usage cfg.diskPaths env.du cfg.diskThr
  match check_running_processes cfg.procCpuThr cfg.procCountThr env.procEnv with
  | .error e => .error e
  | .ok ((_cnt, high, palerts), plog) =>
    let alert := cpu.1.2 || mem.1.2 || !disk.1.isEmpty || !high.isEmpty
        || !palerts.isEmpty
    .ok { cpu_alert := cpu.1.2
          mem_alert := mem.1.2
          disk_alerts := disk.1
          high_cpu_procs := high
          proc_alerts := palerts
          cycle_alerts := alert
          log := (.info, .newCycle) :: cpu.2 ++ mem.2 ++ disk.2 ++ plog
              ++ [(if alert then (.warning, .alertsRaised) else (.info, .allChecksOk)),
                  (.info, .cycleCompleted)] }

/-- What happens at loop iteration `i`: either the cycle runs against an
environment snapshot, or a `KeyboardInterrupt` is delivered during that
iteration (including during its sleeps). -/
inductive CycleInput where
  | run (env : CycleEnv)
  | cancel

/-- How the monitor's loop stands after a bounded number of iterations. -/
inductive MainResult where
  | running
  | stoppedInterrupt
  | stoppedUnexpected
  deriving DecidableEq, Repr

/-- The `try: while True: ... except KeyboardInterrupt: ... except
Exception: ...` of lines 189–214.  The handlers sit OUTSIDE the loop, so
either exception ends the iteration: `KeyboardInterrupt` logs the shutdown
line at info level (line 212), any other exception is logged by
`logger.exception` — error level with traceback (line 214) — and in both
cases `main` returns normally.  `fuel` bounds how many iterations we
unfold; running out of fuel leaves the loop `running`. -/
def mainLoop (cfg : Config) (inputs : Nat → CycleInput) :
    Nat → Nat → MainResult × Log
  | _, 0 => (.running, [])
  | i, fuel+1 =>
    match inputs i with
    | .cancel => (.stoppedInterrupt, [(.info, .stoppedByUser)])
    | .run env =>
      match runCycle cfg env with
      | .error _ => (.stoppedUnexpected, [(.error, .unhandledException)])
      | .ok d =>
        let rest := mainLoop cfg inputs (i+1) fuel
        (rest.1, d.log ++ rest.2)

/-- Process exit status: `main` returns normally on both handled paths, so
the interpreter exits with status 0; while the loop runs there is no exit
status. -/
def exitStatus : MainResult → Option Nat
  | .running => none
  | .stoppedInterrupt => some 0
  | .stoppedUnexpected => some 0

end SysMon

namespace AppMon

/-! ## `app_uptime_monitor.py`: `check_app_status` (lines 59–73) -/

/-- Outcome of `requests.get(url, timeout=timeout)`: a response with a
status code, or a raised `requests.RequestException`. -/
inductive HttpResult where
  | ok (code : Nat)
  | requestFailed
  deriving DecidableEq, Repr

/-- `check_app_status(url, timeout)`: classify the HTTP outcome, returning
the Python pair `(status, status_code)`.  The function is total: the only
exception the request can raise in this model is `requests.RequestException`,
which the handler at line 72 catches. -/
def check_app_status (r : HttpResult) : String × Option Nat :=
  match r with
  | .ok code =>
    if 200 ≤ code ∧ code < 300 then ("UP", some code)
    else ("DOWN", some code)
  | .requestFailed => ("DOWN", none)

end AppMon

namespace SysMon

/-! ## Concrete fixtures for witnesses and counterexamples -/

/-- Disk environment: reading `/` gives 95 %, every other path raises. -/
def duFix : String → Option ℚ := fun p => if p = "/" then some 95 else none

/-- Process environment with one visible process consuming 50 % CPU. -/
def procEnvBusy : ProcEnv :=
  ⟨some 600, [⟨1, some "worker", none⟩], fun _ => .ok (some 50) 10⟩

/-- Phase-2 outcomes where every queried process measures 1 % CPU. -/
def qIdle : Nat → Phase2Result := fun _ => .ok (some 1) 10

/-- Process environment with one visible process consuming 1 % CPU. -/
def procEnvIdle : ProcEnv := ⟨some 3, [⟨1, some "worker", none⟩], qIdle⟩

/-- Same environment, but `len(psutil.pids())` raises. -/
def procEnvNoCount : ProcEnv := ⟨none, [⟨1, some "worker", none⟩], qIdle⟩

/-- A process that is visible and initialized in phase 1. -/
def entryDying : IterEntry := ⟨2, some "dying", none⟩

/-- Phase-2 outcomes where pid 2 has terminated between the phases and
every other process measures 1 % CPU. -/
def qDying : Nat → Phase2Result :=
  fun p => if p = 2 then .transient .noSuchProcess else .ok (some 1) 10

/-- The default command-line configuration of `main` (lines 174–181),
with the default disk path list `["/"]`. -/
def cfgFix : Config := ⟨80, 80, 90, 20, 500, ["/"]⟩

/-- A cycle environment on which every check completes; the disk check on
`/` alerts at 95 % > 90 %. -/
def cycleEnvOk : CycleEnv := ⟨some 50, some 40, duFix, procEnvIdle⟩

/-- A cycle environment whose process scan finds one high-CPU process, so
the cycle raises `KeyError` from the sort at line 162. -/
def cycleEnvBad : CycleEnv := ⟨some 50, some 40, duFix, procEnvBusy⟩

/-- Loop inputs: every iteration runs against `cycleEnvBad` and no
`KeyboardInterrupt` is ever delivered. -/
def inputsBad : Nat → CycleInput := fun _ => .run cycleEnvBad

/-- Loop inputs: a `KeyboardInterrupt` arrives immediately. -/
def inputsCancel : Nat → CycleInput := fun _ => .cancel

/-- The cycle data produced by `runCycle cfgFix cycleEnvOk`: only the disk
alert on `/` fires. -/
def cycleDataOk : CycleData :=
  { cpu_alert := false, mem_alert := false,
    disk_alerts := [("/", 95)], high_cpu_procs := [],
    proc_alerts := [], cycle_alerts := true,
    log := [(.info, .newCycle), (.info, .cpuOk 50), (.info, .memOk 40),
            (.warning, .highDisk "/" 95 90), (.info, .procCountOk 3),
            (.info, .noHighCpu), (.warning, .alertsRaised),
            (.info, .cycleCompleted)] }

end SysMon

namespace SysMon

/-! ## Helper lemmas -/

/-- The disk alert list is a `filterMap` over the configured paths: each
path contributes its `(path, pct)` pair exactly when its read succeeded and
the value strictly exceeds the threshold. -/
theorem check_disk_usage_fst (paths : List String) (du : String → Option ℚ)
    (thr : ℚ) :
    (check_disk_usage paths du thr).1 =
      paths.filterMap
        (fun p => (du p).bind (fun v => if thr < v then some (p, v) else none)) := by
  induction paths with
  | nil => rfl
  | cons p rest ih =>
    simp only [check_disk_usage, List.filterMap_cons]
    cases hdu : du p with
    | none => simpa [hdu] using ih
    | some v =>
      by_cases hv : thr < v
      · simp [hdu, hv, ih]
      · simp [hdu, hv, ih]

/-- A path whose disk read fails gets its error line in the log. -/
theorem check_disk_usage_log_of_fail (paths : List String)
    (du : String → Option ℚ) (thr : ℚ) (p : String)
    (hp : p ∈ paths) (hdu : du p = none) :
    ((Level.info, Event.diskCheckError p) : Level × Event) ∈
      (check_disk_usage paths du thr).2 := by
  induction paths with
  | nil => cases hp
  | cons hd rest ih =>
    rcases List.mem_cons.1 hp with h | h
    · subst h
      simp [check_disk_usage, hdu]
    · have hmem := ih h
      simp only [check_disk_usage]
      cases hdu2 : du hd with
      | none => simp [hmem]
      | some v =>
        by_cases hv : thr < v
        · simp [hv, hmem]
        · simp [hv, hmem]

/-- The phase-2 output list is a `filterMap` over the phase-1 registry. -/
theorem scanProcs_fst (procs : List (Nat × String)) (q : Nat → Phase2Result)
    (thr : ℚ) :
    (scanProcs procs q thr).1 =
      procs.filterMap (fun pn =>
        match q pn.1 with
        | .ok (some cpu) mem =>
          if thr < cpu then some ⟨pn.1, pn.2, cpu, mem⟩ else none
        | _ => none) := by
  induction procs with
  | nil => rfl
  | cons pn rest ih =>
    obtain ⟨pid, name⟩ := pn
    simp only [scanProcs, List.filterMap_cons]
    cases hq : q pid with
    | ok cpu mem =>
      cases cpu with
      | none => simpa [hq] using ih
      | some c =>
        by_cases hc : thr < c
        · simp [hq, hc, ih]
        · simp [hq, hc, ih]
    | transient e => simpa [hq] using ih
    | failed => simpa [hq] using ih

/-- Scanning a concatenated registry concatenates outputs and logs. -/
theorem scanProcs_append (l1 l2 : List (Nat × String)) (q : Nat → Phase2Result)
    (thr : ℚ) :
    scanProcs (l1 ++ l2) q thr =
      ((scanProcs l1 q thr).1 ++ (scanProcs l2 q thr).1,
       (scanProcs l1 q thr).2 ++ (scanProcs l2 q thr).2) := by
  induction l1 with
  | nil => simp [scanProcs]
  | cons pn rest ih =>
    obtain ⟨pid, name⟩ := pn
    simp only [List.cons_append, scanProcs]
    cases hq : q pid with
    | ok cpu mem =>
      cases cpu with
      | none => simp [ih]
      | some c =>
        by_cases hc : thr < c
        · simp [hc, ih]
        · simp [hc, ih]
    | transient e => simp [ih]
    | failed => simp [ih]

/-- Inserting a fresh pid appends it to the registry. -/
theorem dictInsert_fresh (d : List (Nat × String)) (k : Nat) (v : String)
    (h : ∀ kv ∈ d, kv.1 ≠ k) :
    dictInsert d k v = d ++ [(k, v)] := by
  have hany : d.any (fun kv => kv.1 == k) = false := by
    simp only [List.any_eq_false, beq_iff_eq]
    exact h
  simp [dictInsert, hany]

/-- `phase1` over a registry extended by one more iterated process. -/
theorem phase1_append_single (es : List IterEntry) (e : IterEntry) :
    phase1 (es ++ [e]) =
      match e.initErr with
      | some _ => phase1 es
      | none => dictInsert (phase1 es) e.pid (e.name.getD "") := by
  simp only [phase1, List.foldl_append, List.foldl_cons, List.foldl_nil]

/-- Membership in the high-usage list, unfolded to the registry. -/
theorem mem_highCpuList (env : ProcEnv) (thr : ℚ) (r : ProcRec) :
    r ∈ highCpuList env thr ↔
      ∃ pn ∈ phase1 env.entries,
        (match env.query pn.1 with
          | .ok (some cpu) mem =>
            if thr < cpu then some (⟨pn.1, pn.2, cpu, mem⟩ : ProcRec) else none
          | _ => none) = some r := by
  rw [highCpuList, scanProcs_fst, List.mem_filterMap]

/-- The process-count alert list is non-empty exactly when the count was
read and strictly exceeds its threshold. -/
theorem countAlerts_ne_nil (cnt : Option Nat) (thrN : Int) :
    countAlerts cnt thrN ≠ [] ↔ ∃ c, cnt = some c ∧ thrN < (c : Int) := by
  cases cnt with
  | none => simp [countAlerts]
  | some c => by_cases h : thrN < (c : Int) <;> simp [countAlerts, h]

/-- Python truthiness of a list: `!l.isEmpty` is `true` iff `l ≠ []`. -/
theorem not_isEmpty_iff {α : Type} (l : List α) :
    ((!l.isEmpty) = true) ↔ l ≠ [] := by
  cases l <;> simp

/-! ## Claims -/

/-- **C1** (defect at line 162): whenever the high-usage list is non-empty,
`sorted(high_cpu_processes, key=lambda x: x["cpu_percent"], reverse=True)`
subscripts the snapshot dict — whose keys are `"pid"`, `"name"`, `"cpu"`,
`"mem"` — with the absent key `"cpu_percent"`, so `check_running_processes`
raises `KeyError` instead of reporting a descending-sorted list.  Evaluated
at a concrete environment with a single process at 50 % CPU against a 20 %
threshold. -/
theorem claim_C1_sort_key_defect :
    check_running_processes 20 500 procEnvBusy =
      .error (.keyError "cpu_percent") := by
  rfl

/-- **C4**: across all five subsystems (processor, memory, disk, process
count, per-process CPU), an alert is raised exactly when the measured value
strictly exceeds its threshold; equality never alerts. -/
theorem claim_C4_strict_threshold :
    (∀ v thr : ℚ, (check_cpu_usage (some v) thr).1.2 = decide (thr < v)) ∧
    (∀ v thr : ℚ, (check_memory_usage (some v) thr).1.2 = decide (thr < v)) ∧
    (∀ (paths : List String) (du : String → Option ℚ) (thr : ℚ)
        (p : String) (v : ℚ), du p = some v →
      (((p, v) : String × ℚ) ∈ (check_disk_usage paths du thr).1 ↔
        p ∈ paths ∧ thr < v)) ∧
    (∀ (c : Nat) (thrN : Int), countAlerts (some c) thrN ≠ [] ↔ thrN < (c : Int)) ∧
    (∀ (env : ProcEnv) (thr : ℚ) (pid : Nat) (name : String) (cpu mem : ℚ),
      (pid, name) ∈ phase1 env.entries →
      env.query pid = .ok (some cpu) mem →
      ((⟨pid, name, cpu, mem⟩ : ProcRec) ∈ highCpuList env thr ↔ thr < cpu)) := by
  refine ⟨?_, ?_, ?_, ?_, ?_⟩
  · intro v thr
    by_cases h : thr < v <;> simp [check_cpu_usage, h]
  · intro v thr
    by_cases h : thr < v <;> simp [check_memory_usage, h]
  · intro paths du thr p v hdu
    rw [check_disk_usage_fst, List.mem_filterMap]
    constructor
    · rintro ⟨p', hp', heq⟩
      cases hdu' : du p' with
      | none => rw [hdu'] at heq; simp at heq
      | some v' =>
        rw [hdu'] at heq
        by_cases hv' : thr < v'
        · simp only [Option.some_bind, if_pos hv', Option.some.injEq,
            Prod.mk.injEq] at heq
          obtain ⟨hpp, hvv⟩ := heq
          subst hpp; subst hvv
          exact ⟨hp', hv'⟩
        · simp [hv'] at heq
    · rintro ⟨hp, hv⟩
      exact ⟨p, hp, by simp [hdu, hv]⟩
  · intro c thrN
    by_cases h : thrN < (c : Int) <;> simp [countAlerts, h]
  · intro env thr pid name cpu mem hreg hq
    rw [mem_highCpuList]
    constructor
    · rintro ⟨pn, hpn, heq⟩
      have hpid : pn.1 = pid := by
        by_contra hne
        cases hq' : env.query pn.1 with
        | ok c' m' =>
          cases c' with
          | none => rw [hq'] at heq; simp at heq
          | some cv =>
            rw [hq'] at heq
            by_cases hc : thr < cv
            · simp only [if_pos hc, Option.some.injEq] at heq
              exact hne (congrArg ProcRec.pid heq)
            · simp [hc] at heq
        | transient e => rw [hq'] at heq; simp at heq
        | failed => rw [hq'] at heq; simp at heq
      rw [hpid, hq] at heq
      by_cases hc : thr < cpu
      · exact hc
      · simp [hc] at heq
    · intro hc
      exact ⟨(pid, name), hreg, by simp [hq, hc]⟩

/-- Witness for C4: the disk, count and per-process parts instantiated at
concrete inputs (`/` at 95 % vs threshold 90, count 600 vs threshold 500,
one process at 50 % CPU vs threshold 20). -/
theorem claim_C4_witness :
    ((check_cpu_usage (some 50) 80).1.2 = decide ((80 : ℚ) < 50)) ∧
    duFix "/" = some 95 ∧
    ((("/", (95 : ℚ)) : String × ℚ) ∈ (check_disk_usage ["/"] duFix 90).1 ↔
      "/" ∈ ["/"] ∧ (90 : ℚ) < 95) ∧
    (countAlerts (some 600) 500 ≠ [] ↔ (500 : Int) < 600) ∧
    ((1, "worker") ∈ phase1 procEnvBusy.entries ∧
      procEnvBusy.query 1 = .ok (some 50) 10) ∧
    ((⟨1, "worker", 50, 10⟩ : ProcRec) ∈ highCpuList procEnvBusy 20 ↔
      (20 : ℚ) < 50) := by
  refine ⟨claim_C4_strict_threshold.1 50 80, by decide, ?_, ?_, ⟨by decide, rfl⟩, ?_⟩
  · exact claim_C4_strict_threshold.2.2.1 ["/"] duFix 90 "/" 95 (by decide)
  · exact claim_C4_strict_threshold.2.2.2.1 600 500
  · exact claim_C4_strict_threshold.2.2.2.2 procEnvBusy 20 1 "worker" 50 10
      (by decide) rfl

/-- **C6**: a failing disk path is isolated — the alert list over
`l1 ++ [k] ++ l2` with `k` failing equals the alert list over `l1 ++ l2`,
and every reported alert comes from a successfully-read path whose usage
strictly exceeds the threshold. -/
theorem claim_C6_disk_isolation :
    (∀ (l1 l2 : List String) (k : String) (du : String → Option ℚ) (thr : ℚ),
      du k = none →
      (check_disk_usage (l1 ++ k :: l2) du thr).1 =
        (check_disk_usage (l1 ++ l2) du thr).1) ∧
    (∀ (paths : List String) (du : String → Option ℚ) (thr : ℚ)
        (p : String) (v : ℚ),
      ((p, v) : String × ℚ) ∈ (check_disk_usage paths du thr).1 →
      du p = some v ∧ thr < v) := by
  constructor
  · intro l1 l2 k du thr hdu
    rw [check_disk_usage_fst, check_disk_usage_fst, List.filterMap_append,
      List.filterMap_append, List.filterMap_cons, hdu]
    rfl
  · intro paths du thr p v hmem
    rw [check_disk_usage_fst, List.mem_filterMap] at hmem
    rcases hmem with ⟨p', hp', heq⟩
    cases hdu' : du p' with
    | none => rw [hdu'] at heq; simp at heq
    | some v' =>
      rw [hdu'] at heq
      by_cases hv' : thr < v'
      · simp only [Option.some_bind, if_pos hv', Option.some.injEq,
          Prod.mk.injEq] at heq
        obtain ⟨hpp, hvv⟩ := heq
        subst hpp; subst hvv
        exact ⟨hdu', hv'⟩
      · simp [hv'] at heq

/-- Witness for C6: with path list `["/", "/bad", "/tmp"]` where `/bad`
fails, the alert list equals the one for `["/", "/tmp"]`, and the concrete
alert `("/", 95)` is a successful read above threshold. -/
theorem claim_C6_witness :
    duFix "/bad" = none ∧
    (check_disk_usage ["/", "/bad", "/tmp"] duFix 90).1 =
      (check_disk_usage ["/", "/tmp"] duFix 90).1 ∧
    (("/", (95 : ℚ)) : String × ℚ) ∈ (check_disk_usage ["/"] duFix 90).1 ∧
    duFix "/" = some 95 ∧ (90 : ℚ) < 95 := by
  refine ⟨by decide, ?_, ?_, ?_⟩
  · exact claim_C6_disk_isolation.1 ["/"] ["/tmp"] "/bad" duFix 90 (by decide)
  · decide
  · exact claim_C6_disk_isolation.2 ["/"] duFix 90 "/" 95 (by decide)

/-- Counterexample to **C7** as stated: a disk read failure is logged at
info level (line 95 calls `logger.info`), not at error level — the log of a
failing disk check contains the failure line at `info` and no line at
`error`. -/
theorem claim_C7_counterexample :
    check_disk_usage ["/data"] (fun _ => none) 90 =
      ([], [(.info, .diskCheckError "/data")]) ∧
    ((Level.error, Event.diskCheckError "/data") : Level × Event) ∉
      (check_disk_usage ["/data"] (fun _ => none) 90).2 := by
  exact ⟨rfl, by decide⟩

/-- **C7 (amended)**: processor and memory read failures are logged at
error level, a disk read failure is logged at info level; in every case the
metric is treated as absent for the cycle and an absent metric never
generates an alert. -/
theorem claim_C7_read_failures :
    (∀ thr : ℚ, check_cpu_usage none thr =
      ((none, false), [(.error, .cpuReadFailed)])) ∧
    (∀ thr : ℚ, check_memory_usage none thr =
      ((none, false), [(.error, .memReadFailed)])) ∧
    (∀ (paths : List String) (du : String → Option ℚ) (thr : ℚ) (p : String),
      p ∈ paths → du p = none →
      ((Level.info, Event.diskCheckError p) : Level × Event) ∈
        (check_disk_usage paths du thr).2 ∧
      ∀ v : ℚ, ((p, v) : String × ℚ) ∉ (check_disk_usage paths du thr).1) := by
  refine ⟨fun _ => rfl, fun _ => rfl, ?_⟩
  intro paths du thr p hp hdu
  refine ⟨check_disk_usage_log_of_fail paths du thr p hp hdu, ?_⟩
  intro v hmem
  rw [check_disk_usage_fst, List.mem_filterMap] at hmem
  rcases hmem with ⟨p', hp', heq⟩
  cases hdu' : du p' with
  | none => rw [hdu'] at heq; simp at heq
  | some v' =>
    rw [hdu'] at heq
    by_cases hv' : thr < v'
    · simp only [Option.some_bind, if_pos hv', Option.some.injEq,
        Prod.mk.injEq] at heq
      obtain ⟨hpp, _⟩ := heq
      rw [hpp] at hdu'
      rw [hdu] at hdu'
      cases hdu'
    · simp [hv'] at heq

/-- Witness for C7: with paths `["/", "/bad"]` where `/bad` fails, the
failure line for `/bad` appears at info level and `/bad` appears in no
alert. -/
theorem claim_C7_witness :
    "/bad" ∈ ["/", "/bad"] ∧ duFix "/bad" = none ∧
    (((Level.info, Event.diskCheckError "/bad") : Level × Event) ∈
        (check_disk_usage ["/", "/bad"] duFix 90).2 ∧
      ∀ v : ℚ,
        (("/bad", v) : String × ℚ) ∉ (check_disk_usage ["/", "/bad"] duFix 90).1) := by
  exact ⟨by decide, by decide,
    claim_C7_read_failures.2.2 ["/", "/bad"] duFix 90 "/bad" (by decide) (by decide)⟩

/-- **C5**: a snapshot is emitted only for pids successfully queried in
both phases, so the snapshot count is at most the phase-1 registry count;
and a registered process whose phase-2 query raises a transient psutil
exception is silently invisible: the whole `check_running_processes` result
is the same as if the process had never been registered, so no error is
surfaced for it and the cycle proceeds exactly as without it. -/
theorem claim_C5_two_phase :
    (∀ (env : ProcEnv) (thr : ℚ), ∀ r ∈ highCpuList env thr,
      (r.pid, r.name) ∈ phase1 env.entries ∧
      env.query r.pid = .ok (some r.cpu) r.mem ∧ thr < r.cpu) ∧
    (∀ (env : ProcEnv) (thr : ℚ),
      (highCpuList env thr).length ≤ (phase1 env.entries).length) ∧
    (∀ (cnt : Option Nat) (es : List IterEntry) (entry : IterEntry)
        (err : TransientErr) (q : Nat → Phase2Result) (thrC : ℚ) (thrN : Int),
      entry.initErr = none →
      (∀ kv ∈ phase1 es, kv.1 ≠ entry.pid) →
      q entry.pid = .transient err →
      check_running_processes thrC thrN ⟨cnt, es ++ [entry], q⟩ =
        check_running_processes thrC thrN ⟨cnt, es, q⟩) := by
  refine ⟨?_, ?_, ?_⟩
  · intro env thr r hr
    rcases (mem_highCpuList env thr r).1 hr with ⟨pn, hpn, heq⟩
    cases hq : env.query pn.1 with
    | ok c m =>
      cases c with
      | none => rw [hq] at heq; simp at heq
      | some cv =>
        rw [hq] at heq
        by_cases hc : thr < cv
        · simp only [if_pos hc, Option.some.injEq] at heq
          subst heq
          exact ⟨hpn, hq, hc⟩
        · simp [hc] at heq
    | transient e => rw [hq] at heq; simp at heq
    | failed => rw [hq] at heq; simp at heq
  · intro env thr
    rw [highCpuList, scanProcs_fst]
    exact List.length_filterMap_le _ _
  · intro cnt es entry err q thrC thrN hinit hfresh hq
    have h1 : phase1 (es ++ [entry]) =
        phase1 es ++ [(entry.pid, entry.name.getD "")] := by
      rw [phase1_append_single]
      simp only [hinit]
      exact dictInsert_fresh _ _ _ hfresh
    have h3 : scanProcs [(entry.pid, entry.name.getD "")] q thrC = ([], []) := by
      simp [scanProcs, hq]
    have h2 : scanProcs (phase1 (es ++ [entry])) q thrC =
        scanProcs (phase1 es) q thrC := by
      rw [h1, scanProcs_append, h3]
      simp
    simp only [check_running_processes]
    rw [h2]

/-- Witness for C5: the busy environment's single snapshot comes from both
phases and the list lengths agree; appending `entryDying` (pid 2, gone by
phase 2) to the idle environment leaves `check_running_processes`
unchanged. -/
theorem claim_C5_witness :
    (⟨1, "worker", 50, 10⟩ : ProcRec) ∈ highCpuList procEnvBusy 20 ∧
    (((1 : Nat), "worker") ∈ phase1 procEnvBusy.entries ∧
      procEnvBusy.query 1 = .ok (some 50) 10 ∧ (20 : ℚ) < 50) ∧
    (highCpuList procEnvBusy 20).length ≤ (phase1 procEnvBusy.entries).length ∧
    (entryDying.initErr = none ∧
      qDying entryDying.pid = .transient .noSuchProcess ∧
      check_running_processes 20 500
          ⟨some 3, [⟨1, some "worker", none⟩] ++ [entryDying], qDying⟩ =
        check_running_processes 20 500
          ⟨some 3, [⟨1, some "worker", none⟩], qDying⟩) := by
  refine ⟨by decide, ?_, claim_C5_two_phase.2.1 procEnvBusy 20, rfl, rfl, ?_⟩
  · exact claim_C5_two_phase.1 procEnvBusy 20 ⟨1, "worker", 50, 10⟩ (by decide)
  · exact claim_C5_two_phase.2.2 (some 3) [⟨1, some "worker", none⟩] entryDying
      .noSuchProcess qDying 20 500 rfl (by decide) rfl

/-- **C9**: when `len(psutil.pids())` raises, the count is reported as
absent, no process-count alert is raised, the error is logged at error
level, and the two-phase CPU scan still runs in full — the high-usage
result (including whether the call raises) is identical to the one obtained
with any successfully-read count. -/
theorem claim_C9_count_failure_isolated :
    (∀ (es : List IterEntry) (q : Nat → Phase2Result) (thrC : ℚ) (thrN : Int)
        (out : Option Nat × List ProcRec × List (String × Nat)) (log : Log),
      check_running_processes thrC thrN ⟨none, es, q⟩ = .ok (out, log) →
      out.1 = none ∧ out.2.2 = [] ∧
      out.2.1 = highCpuList ⟨none, es, q⟩ thrC ∧
      ((Level.error, Event.procCountFailed) : Level × Event) ∈ log) ∧
    (∀ (es : List IterEntry) (q : Nat → Phase2Result) (thrC : ℚ) (thrN : Int)
        (c : Nat),
      (check_running_processes thrC thrN ⟨none, es, q⟩).map (fun r => r.1.2.1) =
        (check_running_processes thrC thrN ⟨some c, es, q⟩).map
          (fun r => r.1.2.1)) := by
  constructor
  · intro es q thrC thrN out log h
    simp only [check_running_processes] at h
    cases hrep : reportHighCpu (scanProcs (phase1 es) q thrC).1 with
    | error e => rw [hrep] at h; cases h
    | ok rlog =>
      rw [hrep] at h
      simp only [Except.ok.injEq, Prod.mk.injEq] at h
      obtain ⟨hout, hlog⟩ := h
      subst hout; subst hlog
      exact ⟨rfl, rfl, rfl, by simp [countLogOf]⟩
  · intro es q thrC thrN c
    simp only [check_running_processes]
    cases hrep : reportHighCpu (scanProcs (phase1 es) q thrC).1 with
    | error e => simp [Except.map]
    | ok rlog => simp [Except.map]

/-- Witness for C9: the idle single-process environment with a failed
count read returns an absent count, no count alert, the full scan result,
and the error-level log line; its high-usage outcome agrees with the
count-read-succeeded variant. -/
theorem claim_C9_witness :
    check_running_processes 20 500 procEnvNoCount =
      .ok ((none, [], []),
        [(.error, .procCountFailed), (.info, .noHighCpu)]) ∧
    (((none : Option Nat), ([] : List ProcRec), ([] : List (String × Nat))).1 = none ∧
      ((none : Option Nat), ([] : List ProcRec), ([] : List (String × Nat))).2.2 = [] ∧
      ((none : Option Nat), ([] : List ProcRec), ([] : List (String × Nat))).2.1 =
        highCpuList procEnvNoCount 20 ∧
      ((Level.error, Event.procCountFailed) : Level × Event) ∈
        ([(.error, .procCountFailed), (.info, .noHighCpu)] : Log)) ∧
    (check_running_processes 20 500 procEnvNoCount).map (fun r => r.1.2.1) =
      (check_running_processes 20 500 procEnvIdle).map (fun r => r.1.2.1) := by
  refine ⟨rfl, ?_, ?_⟩
  · exact claim_C9_count_failure_isolated.1 [⟨1, some "worker", none⟩] qIdle 20 500
      (none, [], []) [(.error, .procCountFailed), (.info, .noHighCpu)] rfl
  · exact claim_C9_count_failure_isolated.2 [⟨1, some "worker", none⟩] qIdle 20 500 3

/-- **C3**: for every completed cycle, `cycle_alerts` is true exactly when
the processor alert fired, the memory alert fired, some disk alert fired,
the process-count alert fired (the `alerts` list of
`check_running_processes` is non-empty, which happens exactly when the
count was read and exceeds its threshold), or the high-usage list is
non-empty. -/
theorem claim_C3_cycle_alert (cfg : Config) (env : CycleEnv) (d : CycleData)
    (h : runCycle cfg env = .ok d) :
    (d.cycle_alerts = true ↔
      d.cpu_alert = true ∨ d.mem_alert = true ∨ d.disk_alerts ≠ [] ∨
      d.proc_alerts ≠ [] ∨ d.high_cpu_procs ≠ []) ∧
    (d.proc_alerts ≠ [] ↔
      ∃ c, env.procEnv.pidsCount = some c ∧ cfg.procCountThr < (c : Int)) := by
  simp only [runCycle, check_running_processes] at h
  cases hrep : reportHighCpu
      (scanProcs (phase1 env.procEnv.entries) env.procEnv.query cfg.procCpuThr).1 with
  | error e => rw [hrep] at h; cases h
  | ok rlog =>
    rw [hrep] at h
    have hd := Except.ok.inj h
    subst hd
    constructor
    · show (_ || _ || _ || _ || _) = true ↔ _
      simp only [Bool.or_eq_true, not_isEmpty_iff]
      tauto
    · exact countAlerts_ne_nil _ _

/-- Witness for C3: the default configuration against the completing cycle
environment, whose only alert is the disk alert on `/`. -/
theorem claim_C3_witness :
    runCycle cfgFix cycleEnvOk = .ok cycleDataOk ∧
    (cycleDataOk.cycle_alerts = true ↔
      cycleDataOk.cpu_alert = true ∨ cycleDataOk.mem_alert = true ∨
      cycleDataOk.disk_alerts ≠ [] ∨ cycleDataOk.proc_alerts ≠ [] ∨
      cycleDataOk.high_cpu_procs ≠ []) ∧
    (cycleDataOk.proc_alerts ≠ [] ↔
      ∃ c, cycleEnvOk.procEnv.pidsCount = some c ∧
        cfgFix.procCountThr < (c : Int)) := by
  refine ⟨rfl, ?_, ?_⟩
  · exact (claim_C3_cycle_alert cfgFix cycleEnvOk cycleDataOk rfl).1
  · exact (claim_C3_cycle_alert cfgFix cycleEnvOk cycleDataOk rfl).2

/-- Counterexample to **C2** as stated: with fuel for five loop iterations
and an environment whose first cycle raises an unexpected `KeyError`, the
loop terminates at once (`stoppedUnexpected`, not `running`) — the next
cycle never begins. -/
theorem claim_C2_counterexample :
    mainLoop cfgFix inputsBad 0 5 =
      (.stoppedUnexpected, [(.error, .unhandledException)]) ∧
    MainResult.stoppedUnexpected ≠ MainResult.running := by
  exact ⟨rfl, by decide⟩

/-- **C2 (amended)**: an unexpected exception raised inside a cycle is
caught by the handler sitting outside the `while` loop, logged with full
context by `logger.exception` (error level), and terminates the loop:
`main` returns with no further cycle run, rather than continuing with the
next cycle. -/
theorem claim_C2_unexpected_terminates (cfg : Config)
    (inputs : Nat → CycleInput) (i fuel : Nat) (env : CycleEnv) (e : PyErr)
    (hin : inputs i = .run env) (hrun : runCycle cfg env = .error e) :
    mainLoop cfg inputs i (fuel + 1) =
      (.stoppedUnexpected, [(.error, .unhandledException)]) := by
  simp [mainLoop, hin, hrun]

/-- Witness for C2 (amended): the first cycle against `cycleEnvBad` raises
`KeyError` and the loop stops there. -/
theorem claim_C2_witness :
    inputsBad 0 = .run cycleEnvBad ∧
    runCycle cfgFix cycleEnvBad = .error (.keyError "cpu_percent") ∧
    mainLoop cfgFix inputsBad 0 3 =
      (.stoppedUnexpected, [(.error, .unhandledException)]) := by
  refine ⟨rfl, rfl, ?_⟩
  exact claim_C2_unexpected_terminates cfgFix inputsBad 0 2 cycleEnvBad
    (.keyError "cpu_percent") rfl rfl

/-- Counterexample to **C8** as stated: the loop can exit without any
cancellation signal — an unexpected exception in a cycle is a second
terminal state. -/
theorem claim_C8_counterexample :
    mainLoop cfgFix inputsBad 0 1 =
      (.stoppedUnexpected, [(.error, .unhandledException)]) ∧
    inputsBad 0 ≠ CycleInput.cancel := by
  refine ⟨rfl, ?_⟩
  intro hcontra
  simp only [inputsBad] at hcontra
  cases hcontra

/-- **C8 (amended)**: a cancellation signal ends the loop with the shutdown
line logged at info level and a clean zero exit status; but cancellation is
not the only terminal state — an unexpected exception also terminates the
loop, likewise with exit status zero since `main` catches it and returns
normally. -/
theorem claim_C8_shutdown (cfg : Config) (inputs : Nat → CycleInput)
    (i fuel : Nat) (hin : inputs i = .cancel) :
    mainLoop cfg inputs i (fuel + 1) =
      (.stoppedInterrupt, [(.info, .stoppedByUser)]) ∧
    exitStatus .stoppedInterrupt = some 0 ∧
    exitStatus .stoppedUnexpected = some 0 := by
  refine ⟨by simp [mainLoop, hin], rfl, rfl⟩

/-- Witness for C8 (amended): cancellation delivered at the first
iteration. -/
theorem claim_C8_witness :
    inputsCancel 0 = .cancel ∧
    mainLoop cfgFix inputsCancel 0 4 =
      (.stoppedInterrupt, [(.info, .stoppedByUser)]) ∧
    exitStatus .stoppedInterrupt = some 0 ∧
    exitStatus .stoppedUnexpected = some 0 := by
  exact ⟨rfl, claim_C8_shutdown cfgFix inputsCancel 0 3 rfl⟩

end SysMon

namespace AppMon

/-- **C10**: `check_app_status` never raises; it returns `("UP", code)`
exactly when `200 ≤ code < 300`, `("DOWN", code)` for any other received
status code, and `("DOWN", None)` when the request raises
`requests.RequestException`.  (Non-raising is totality of
`check_app_status` over every modelled request outcome.) -/
theorem claim_C10_app_status :
    (∀ code : Nat,
      (200 ≤ code ∧ code < 300) ↔ check_app_status (.ok code) = ("UP", some code)) ∧
    (∀ code : Nat,
      ¬(200 ≤ code ∧ code < 300) ↔ check_app_status (.ok code) = ("DOWN", some code)) ∧
    check_app_status .requestFailed = ("DOWN", none) := by
  refine ⟨?_, ?_, rfl⟩
  · intro code
    by_cases h : 200 ≤ code ∧ code < 300 <;> simp [check_app_status, h]
  · intro code
    by_cases h : 200 ≤ code ∧ code < 300 <;> simp [check_app_status, h]

end AppMon
